import Mathlib

/-!
Verification of `carbontracker/components/component.py`.

The Python module is shallowly embedded: floats become `ℚ`, Python `None`
becomes `Option.none`, raised exceptions become explicit error values
(`Except` for fallible calls, and `Component × Option CtError` for the one
method that mutates state before it can raise).  A hardware handler is
modelled as a record carrying its `available()` answer, its device list and
a stream of `power_usage()` readings indexed by how many times it has been
queried; the component state carries that query counter.
-/

namespace Carbontracker

/-- A hardware monitoring backend (the external `HardwareHandler`
capability): `isAvailable` is the result of `available()`, `devices` the
result of `devices()`, and `power n` the per-device watt vector returned by
the `n`-th call to `power_usage()`. -/
structure Handler where
  isAvailable : Bool
  devices : List String
  power : Nat → List ℚ

/-- Exceptions of the Python module.  `gpuError` and `cpuError` model the
module-level `GPUError` / `CPUError` instances, `componentNameError` models
`ComponentNameError`.  `raiseNone` models the `TypeError` Python produces
when `raise error_by_name(...)` is given `None`, and `indexError` models the
`IndexError` of `power_usages[-1]` on an empty list; both are unreachable
from constructed components but keep the embedding total and faithful. -/
inductive CtError where
  | gpuError (msg : String)
  | cpuError (msg : String)
  | componentNameError (msg : String)
  | raiseNone
  | indexError

/-- One entry of the module-level `components` list: a hardware-type name,
its not-available error, and its ordered candidate handlers. -/
structure ComponentSpec where
  name : String
  error : CtError
  handlers : List Handler

/-- The module-level `components` registry, abstracted over the two
concrete handler instances (`nvidia.NvidiaGPU()` and `intel.IntelCPU()`),
whose behaviour depends on the machine. -/
def componentsRegistry (nvidiaGPU intelCPU : Handler) : List ComponentSpec :=
  [ { name := "gpu", error := CtError.gpuError "No GPU(s) available.",
      handlers := [nvidiaGPU] },
    { name := "cpu", error := CtError.cpuError "No CPU(s) available.",
      handlers := [intelCPU] } ]

/-- Embeds `component_names()`: the registered hardware-type names, in registry
order. -/
def component_names (reg : List ComponentSpec) : List String :=
  reg.map (fun comp => comp.name)

/-- Embeds `error_by_name(name)`: the error of the first matching entry; the
Python function returns `None` (here `Option.none`) when no entry
matches. -/
def error_by_name (reg : List ComponentSpec) (name : String) : Option CtError :=
  (reg.find? (fun comp => comp.name == name)).map (fun comp => comp.error)

/-- Embeds `handlers_by_name(name)`: the handler list of the first matching
entry; the Python function returns `None` (here `Option.none`) when no
entry matches. -/
def handlers_by_name (reg : List ComponentSpec) (name : String) :
    Option (List Handler) :=
  (reg.find? (fun comp => comp.name == name)).map (fun comp => comp.handlers)

/-- The state of a `Component` instance: its name, the handler resolved at
construction (`self._handler`), the epoch buckets of power samples
(`self.power_usages`), the last-seen epoch (`self.cur_epoch`, sentinel -1),
and `calls`, the number of `power_usage()` queries made so far (the index
into the reading stream of the handler). -/
structure Component where
  name : String
  _handler : Option Handler
  power_usages : List (List (List ℚ))
  cur_epoch : Int
  calls : Nat

/-- Embeds `Component._determine_handler`: scan the candidate handlers in list
order and return the first whose `available()` is true, else `None`. -/
def determine_handler : List Handler → Option Handler
  | [] => none
  | h :: rest => if h.isAvailable then some h else determine_handler rest

/-- Embeds `Component.__init__(name)`: raise `ComponentNameError` when `name` is
not registered, otherwise resolve the handler eagerly and start with no
buckets and the epoch sentinel -1. -/
def Component.mk' (reg : List ComponentSpec) (name : String) :
    Except CtError Component :=
  if name ∈ component_names reg then
    Except.ok
      { name := name,
        _handler := determine_handler ((handlers_by_name reg name).getD []),
        power_usages := [],
        cur_epoch := -1,
        calls := 0 }
  else
    Except.error (CtError.componentNameError
      ("No component found with name " ++ name ++ "."))

/-- The `Component.handler` property: the resolved handler, or raise the
registered error of the hardware type when none was resolved (`raiseNone`
stands for the `TypeError` Python raises if the name had no registered
error). -/
def Component.handler (reg : List ComponentSpec) (c : Component) :
    Except CtError Handler :=
  match c._handler with
  | none => Except.error ((error_by_name reg c.name).getD CtError.raiseNone)
  | some h => Except.ok h

/-- Embeds `Component.available()`: true iff a handler was resolved. -/
def Component.available (c : Component) : Bool :=
  c._handler.isSome

/-- Embeds `Component.devices()`: delegate to the resolved handler. -/
def Component.devicesE (reg : List ComponentSpec) (c : Component) :
    Except CtError (List String) :=
  (c.handler reg).map (fun h => h.devices)

/-- Embeds `Component.init()`: delegate to the resolved handler (the side
effect inside the handler is out of scope, so success carries no data). -/
def Component.initE (reg : List ComponentSpec) (c : Component) :
    Except CtError Unit :=
  (c.handler reg).map (fun _ => ())

/-- Embeds `Component.shutdown()`: delegate to the resolved handler. -/
def Component.shutdownE (reg : List ComponentSpec) (c : Component) :
    Except CtError Unit :=
  (c.handler reg).map (fun _ => ())

/-- Embeds `Component.collect_power_usage(epoch)`: no-op when `epoch < 1`; open a
new empty bucket and update `cur_epoch` when the epoch changed; then append
one fresh reading to the last bucket.  The result pairs the state after the
call with the exception it raised, if any: Python evaluates
`self.power_usages[-1]` (possible `IndexError`), then `self.handler`
(possible not-available error), after the bucket/epoch mutation, so an
exception leaves the mutation in place. -/
def Component.collect_power_usage (reg : List ComponentSpec) (c : Component)
    (epoch : Int) : Component × Option CtError :=
  if epoch < 1 then (c, none)
  else
    let c1 :=
      if epoch ≠ c.cur_epoch then
        { c with cur_epoch := epoch, power_usages := c.power_usages ++ [[]] }
      else c
    match c1.power_usages.getLast? with
    | none => (c1, some CtError.indexError)
    | some bucket =>
      match c1._handler with
      | none =>
        (c1, some ((error_by_name reg c1.name).getD CtError.raiseNone))
      | some h =>
        ({ c1 with
            power_usages :=
              c1.power_usages.dropLast ++ [bucket ++ [h.power c1.calls]],
            calls := c1.calls + 1 },
          none)

/-- Elementwise sum of a list of per-device vectors, as `np.sum` along axis
0 computes it on a rectangular array. -/
def sumAxis0 : List (List ℚ) → List ℚ
  | [] => []
  | [s] => s
  | s :: rest => List.zipWith (· + ·) s (sumAxis0 rest)

/-- Embeds `np.mean(power, axis=0)`: the per-device arithmetic mean of the
samples. -/
def np_mean_axis0 (power : List (List ℚ)) : List ℚ :=
  (sumAxis0 power).map (fun x => x / (power.length : ℚ))

/-- The body of the `energy_usage` loop for one `(power, time)` pair:
`np.multiply(np.mean(power, axis=0), time).sum() / 3600000`. -/
def epoch_energy (power : List (List ℚ)) (time : ℚ) : ℚ :=
  (((np_mean_axis0 power).map (fun x => x * time)).sum) / 3600000

/-- Embeds `Component.energy_usage(epoch_times)`: kWh per epoch, pairing buckets
with times via `zip` (stopping at the shorter sequence). -/
def Component.energy_usage (c : Component) (epoch_times : List ℚ) : List ℚ :=
  (c.power_usages.zip epoch_times).map (fun p => epoch_energy p.1 p.2)

/-- Drop the whitespace characters at the head of a character list; used to
model the argumentless `str.strip` of Python. -/
def dropWhileWhitespace : List Char → List Char
  | [] => []
  | c :: t => if c.isWhitespace then dropWhileWhitespace t else c :: t

/-- Embeds `comp_str.strip()`: remove leading and trailing whitespace. -/
def pyStrip (s : String) : String :=
  ⟨(dropWhileWhitespace ((dropWhileWhitespace s.data).reverse)).reverse⟩

/-- Embeds `.replace(" ", "")`: remove every space character. -/
def pyRemoveSpaces (s : String) : String :=
  ⟨s.data.filter (fun c => c != ' ')⟩

/-- Split a character list on commas; `str.split(",")` in Python yields one
(possibly empty) token per comma-separated stretch. -/
def splitCommaChars : List Char → List (List Char)
  | [] => [[]]
  | c :: t =>
    if c = ',' then [] :: splitCommaChars t
    else
      match splitCommaChars t with
      | [] => [[c]]
      | g :: gs => (c :: g) :: gs

/-- Embeds `comp_str.split(",")`. -/
def pySplitComma (s : String) : List String :=
  (splitCommaChars s.data).map (fun l => ⟨l⟩)

/-- Embeds `create_components(comp_str)`: strip surrounding whitespace, remove
embedded spaces, then either expand `"all"` to every registered name or
split on commas; each token is constructed with `Component.mk'` (Python
builds the list comprehension left to right, so the exception of the first
failing token propagates, as `mapM` over `Except` does). -/
def create_components (reg : List ComponentSpec) (comp_str : String) :
    Except CtError (List Component) :=
  if pyRemoveSpaces (pyStrip comp_str) = "all" then
    (component_names reg).mapM (fun n => Component.mk' reg n)
  else
    (pySplitComma (pyRemoveSpaces (pyStrip comp_str))).mapM
      (fun n => Component.mk' reg n)

/-- The per-epoch energy formula of the specification, written from the spec
text for comparison with `epoch_energy` from the code: for each of the `d`
devices, the arithmetic mean of the readings of that device across the
samples of the bucket, multiplied by the elapsed time; summed across
devices; divided by
3,600,000 to convert joules to kilowatt-hours. -/
def spec_epoch_energy (d : ℕ) (bucket : List (List ℚ)) (time : ℚ) : ℚ :=
  (((List.range d).map (fun j =>
      ((bucket.map (fun s => s.getD j 0)).sum / (bucket.length : ℚ)) * time)).sum)
    / 3600000

/-- A test handler that reports itself available, with one device drawing a
constant 100 W. -/
def hOn : Handler :=
  { isAvailable := true, devices := ["device0"], power := fun _ => [100] }

/-- A test handler that reports itself unavailable. -/
def hOff : Handler :=
  { isAvailable := false, devices := [], power := fun _ => [] }

/-- The module registry on a machine where both backends are available. -/
def regOn : List ComponentSpec := componentsRegistry hOn hOn

/-- The module registry on a machine where no backend is available. -/
def regOff : List ComponentSpec := componentsRegistry hOff hOff

/-- A freshly constructed gpu component whose handler resolved to `hOn`
(the state `Component.mk' regOn "gpu"` produces). -/
def gpuWithHandler : Component :=
  { name := "gpu", _handler := some hOn, power_usages := [], cur_epoch := -1,
    calls := 0 }

/-- A freshly constructed gpu component on a machine with no available
backend (the state `Component.mk' regOff "gpu"` produces). -/
def gpuNoHandler : Component :=
  { name := "gpu", _handler := none, power_usages := [], cur_epoch := -1,
    calls := 0 }

/-- One `collect_power_usage` call, keeping only the state (the calls in
the test scenarios all succeed). -/
def collectStep (reg : List ComponentSpec) (c : Component) (epoch : Int) :
    Component :=
  (c.collect_power_usage reg epoch).1

/-- The scenario of the spec: three `collect_power_usage(1)` calls followed
by two `collect_power_usage(2)` calls on a fresh component. -/
def scenarioC2 : Component :=
  collectStep regOn
    (collectStep regOn
      (collectStep regOn
        (collectStep regOn (collectStep regOn gpuWithHandler 1) 1) 1) 2) 2

/-- A component holding the one-device example bucket [[100],[200],[300]]
from the spec. -/
def c1demo : Component :=
  { name := "gpu", _handler := some hOn,
    power_usages := [[[100], [200], [300]]], cur_epoch := 1, calls := 3 }

/-- C4: `Component(name)` raises `ComponentNameError` iff `name` is not a
registered component name; for a registered name construction succeeds even
when no candidate backend is available. -/
theorem mk_ok_iff_registered (reg : List ComponentSpec) (name : String) :
    ((∃ c, Component.mk' reg name = Except.ok c) ↔ name ∈ component_names reg)
    ∧ (name ∉ component_names reg →
        Component.mk' reg name = Except.error (CtError.componentNameError
          ("No component found with name " ++ name ++ "."))) := by
  unfold Component.mk'
  by_cases h : name ∈ component_names reg
  · simp [h]
  · simp [h]

/-- C4 witness: on the all-unavailable registry, constructing "gpu"
succeeds (and the unregistered-name error is characterized). -/
theorem mk_ok_iff_registered_witness :
    ((∃ c, Component.mk' regOff "gpu" = Except.ok c) ↔
        "gpu" ∈ component_names regOff)
    ∧ ("gpu" ∉ component_names regOff →
        Component.mk' regOff "gpu" = Except.error (CtError.componentNameError
          ("No component found with name " ++ "gpu" ++ "."))) :=
  mk_ok_iff_registered regOff "gpu"

/-- C6: `collect_power_usage(epoch)` with `epoch < 1` is a no-op: the whole
component state is returned unchanged and no exception is raised. -/
theorem collect_power_usage_noop (reg : List ComponentSpec) (c : Component)
    (epoch : Int) (h : epoch < 1) :
    c.collect_power_usage reg epoch = (c, none) := by
  unfold Component.collect_power_usage
  simp [h]

/-- C6 witness: `collect_power_usage 0` and `collect_power_usage (-1)`
leave a fresh gpu component untouched. -/
theorem collect_power_usage_noop_witness :
    gpuWithHandler.collect_power_usage regOn 0 = (gpuWithHandler, none) ∧
    gpuWithHandler.collect_power_usage regOn (-1) = (gpuWithHandler, none) :=
  ⟨collect_power_usage_noop regOn gpuWithHandler 0 (by decide),
   collect_power_usage_noop regOn gpuWithHandler (-1) (by decide)⟩

/-- C9 counterexample: for the unregistered name "tpu" the lookup returns
`None` (the Python `None`), not an empty handler sequence. -/
theorem handlers_by_name_unknown_counterexample :
    handlers_by_name regOn "tpu" = none ∧
    handlers_by_name regOn "tpu" ≠ some ([] : List Handler) := by
  refine ⟨rfl, ?_⟩
  intro h
  rw [show handlers_by_name regOn "tpu" = none from rfl] at h
  exact Option.noConfusion h

/-- C9 amended: for every name not in the registry, `handlers_by_name`
returns `None` (it does not raise, and it does not return a list). -/
theorem handlers_by_name_unknown (reg : List ComponentSpec) (name : String)
    (h : name ∉ component_names reg) :
    handlers_by_name reg name = none := by
  unfold handlers_by_name
  rw [List.find?_eq_none.mpr]
  · rfl
  · intro comp hmem
    simp only [beq_iff_eq]
    intro heq
    exact h (heq ▸ List.mem_map_of_mem (fun c => c.name) hmem)

/-- C9 witness: the amended lookup behaviour at the unregistered name
"tpu". -/
theorem handlers_by_name_unknown_witness :
    handlers_by_name regOn "tpu" = none :=
  handlers_by_name_unknown regOn "tpu" (by decide)

/-- C5: on a component whose handler resolution yielded no handler,
`devices()`, `init()` and `shutdown()` all raise the registered
not-available error of the hardware type. -/
theorem unresolved_operations_raise (reg : List ComponentSpec)
    (c : Component) (e : CtError) (hh : c._handler = none)
    (he : error_by_name reg c.name = some e) :
    c.devicesE reg = Except.error e ∧ c.initE reg = Except.error e ∧
    c.shutdownE reg = Except.error e := by
  unfold Component.devicesE Component.initE Component.shutdownE
    Component.handler
  rw [hh, he]
  exact ⟨rfl, rfl, rfl⟩

/-- C5 witness: on a machine with no available backend, the operations
`devices`/`init`/`shutdown` of the gpu component raise `GPUError`. -/
theorem unresolved_operations_raise_witness :
    gpuNoHandler.devicesE regOff =
      Except.error (CtError.gpuError "No GPU(s) available.") ∧
    gpuNoHandler.initE regOff =
      Except.error (CtError.gpuError "No GPU(s) available.") ∧
    gpuNoHandler.shutdownE regOff =
      Except.error (CtError.gpuError "No GPU(s) available.") :=
  unresolved_operations_raise regOff gpuNoHandler
    (CtError.gpuError "No GPU(s) available.") rfl rfl

/-- C10: on a component with no resolved handler, `collect_power_usage`
with a fresh epoch ≥ 1 raises the type-specific not-available error, but
only after appending a new empty bucket and updating the epoch marker: the
state in the result is mutated even though the call fails. -/
theorem collect_mutates_then_raises (reg : List ComponentSpec)
    (c : Component) (epoch : Int) (e : CtError) (hh : c._handler = none)
    (he : 1 ≤ epoch) (hne : epoch ≠ c.cur_epoch)
    (herr : error_by_name reg c.name = some e) :
    c.collect_power_usage reg epoch =
      ({ c with
          cur_epoch := epoch
          power_usages := c.power_usages ++ [[]] }, some e) := by
  unfold Component.collect_power_usage
  rw [if_neg (by omega)]
  simp only [hne, if_pos, ne_eq, not_false_iff, List.getLast?_concat, hh,
    herr, Option.getD_some]

/-- C10 witness: the failing `collect_power_usage 1` call on a fresh
handlerless gpu component returns the mutated state together with
`GPUError`. -/
theorem collect_mutates_then_raises_witness :
    gpuNoHandler.collect_power_usage regOff 1 =
      ({ gpuNoHandler with
          cur_epoch := 1
          power_usages := gpuNoHandler.power_usages ++ [[]] },
        some (CtError.gpuError "No GPU(s) available.")) :=
  collect_mutates_then_raises regOff gpuNoHandler 1
    (CtError.gpuError "No GPU(s) available.") rfl (by decide) (by decide) rfl

/-- The Python scan loop of `_determine_handler` computes `List.find?` on
the availability predicate. -/
theorem determine_handler_eq_find (hs : List Handler) :
    determine_handler hs = hs.find? (fun h => h.isAvailable) := by
  induction hs with
  | nil => rfl
  | cons h t ih =>
    unfold determine_handler
    by_cases hav : h.isAvailable
    · simp [hav, List.find?_cons_of_pos]
    · simp only [Bool.not_eq_true] at hav
      simp [hav, List.find?_cons_of_neg, ih]

/-- C3: a successfully constructed component holds the first available
candidate handler in registry order (`None` when no candidate is
available), and `available()` is true iff some candidate reported itself
available at construction. -/
theorem handler_resolution (reg : List ComponentSpec) (name : String)
    (c : Component) (hc : Component.mk' reg name = Except.ok c) :
    c._handler =
      ((handlers_by_name reg name).getD []).find? (fun h => h.isAvailable) ∧
    (c.available = true ↔
      ∃ h ∈ (handlers_by_name reg name).getD [], h.isAvailable = true) := by
  unfold Component.mk' at hc
  by_cases hmem : name ∈ component_names reg
  · rw [if_pos hmem] at hc
    have hcc := Except.ok.inj hc
    subst hcc
    refine ⟨determine_handler_eq_find _, ?_⟩
    simp [Component.available, determine_handler_eq_find, List.find?_isSome]
  · rw [if_neg hmem] at hc
    exact Except.noConfusion hc

/-- C3 witness: on the all-available registry, the gpu component selects
the first (only) candidate handler and reports itself available. -/
theorem handler_resolution_witness :
    gpuWithHandler._handler =
      ((handlers_by_name regOn "gpu").getD []).find? (fun h => h.isAvailable)
    ∧ (gpuWithHandler.available = true ↔
        ∃ h ∈ (handlers_by_name regOn "gpu").getD [],
          h.isAvailable = true) :=
  handler_resolution regOn "gpu" gpuWithHandler rfl

/-- C2: on a component with a resolved handler and `epoch ≥ 1`,
`collect_power_usage` raises nothing, opens a new empty bucket exactly when
the epoch differs from the last-seen one, appends one fresh handler reading
to the last bucket, and records the epoch as current.  (The side condition
rules out the unreachable state where the last-seen epoch is ≥ 1 but no
bucket exists.) -/
theorem collect_appends_reading (reg : List ComponentSpec) (c : Component)
    (epoch : Int) (h : Handler) (hh : c._handler = some h) (he : 1 ≤ epoch)
    (hne : epoch = c.cur_epoch → c.power_usages ≠ []) :
    (c.collect_power_usage reg epoch).2 = none ∧
    (c.collect_power_usage reg epoch).1.power_usages =
      (if epoch = c.cur_epoch
        then c.power_usages.dropLast ++
          [(c.power_usages.getLast?.getD []) ++ [h.power c.calls]]
        else c.power_usages ++ [[h.power c.calls]]) ∧
    (c.collect_power_usage reg epoch).1.cur_epoch = epoch := by
  unfold Component.collect_power_usage
  rw [if_neg (by omega)]
  by_cases heq : epoch = c.cur_epoch
  · rw [if_neg (by simp [heq])]
    cases hlast : c.power_usages.getLast? with
    | none =>
      exact absurd (List.getLast?_eq_none_iff.mp hlast) (hne heq)
    | some b =>
      simp [hh, heq, hlast]
  · rw [if_pos (by simp [heq])]
    simp [hh, heq, List.getLast?_concat]

/-- C2 witness: the scenario of the spec (three calls at epoch 1, two at
epoch 2) produces exactly two buckets of lengths 3 and 2; the theorem is
applied to the first call of the scenario. -/
theorem collect_appends_reading_witness :
    scenarioC2.power_usages.map List.length = [3, 2] ∧
    ((gpuWithHandler.collect_power_usage regOn 1).2 = none ∧
     (gpuWithHandler.collect_power_usage regOn 1).1.power_usages =
       (if (1 : Int) = gpuWithHandler.cur_epoch
         then gpuWithHandler.power_usages.dropLast ++
           [(gpuWithHandler.power_usages.getLast?.getD []) ++
             [hOn.power gpuWithHandler.calls]]
         else gpuWithHandler.power_usages ++
           [[hOn.power gpuWithHandler.calls]]) ∧
     (gpuWithHandler.collect_power_usage regOn 1).1.cur_epoch = 1) :=
  ⟨by decide,
   collect_appends_reading regOn gpuWithHandler 1 hOn rfl (by decide)
     (by decide)⟩

/-- C7: `energy_usage` produces exactly `min` of the two lengths many
values, and the `i`-th value is the energy of the `i`-th (bucket, time)
pair, in epoch order. -/
theorem energy_usage_pairing (c : Component) (ts : List ℚ) :
    (c.energy_usage ts).length = min c.power_usages.length ts.length ∧
    ∀ i : ℕ, i < (c.energy_usage ts).length →
      (c.energy_usage ts).getD i 0 =
        epoch_energy (c.power_usages.getD i []) (ts.getD i 0) := by
  constructor
  · simp [Component.energy_usage]
  · intro i hi
    have hlen : i < min c.power_usages.length ts.length := by
      simpa [Component.energy_usage] using hi
    have h1 : i < c.power_usages.length := lt_of_lt_of_le hlen (min_le_left _ _)
    have h2 : i < ts.length := lt_of_lt_of_le hlen (min_le_right _ _)
    have h3 : i < (c.power_usages.zip ts).length := by
      simpa using hlen
    rw [List.getD_eq_getElem _ _ hi, List.getD_eq_getElem _ _ h1,
      List.getD_eq_getElem _ _ h2]
    simp [Component.energy_usage, List.getElem_zip]

/-- C7 witness: the theorem applied to the example component and a
two-element time list (one bucket, two times: one pair is processed). -/
theorem energy_usage_pairing_witness :
    (c1demo.energy_usage [3600, 42]).length =
      min c1demo.power_usages.length ([3600, 42] : List ℚ).length ∧
    ∀ i : ℕ, i < (c1demo.energy_usage [3600, 42]).length →
      (c1demo.energy_usage [3600, 42]).getD i 0 =
        epoch_energy (c1demo.power_usages.getD i [])
          (([3600, 42] : List ℚ).getD i 0) :=
  energy_usage_pairing c1demo [3600, 42]

/-- The elementwise sum has the common device count as its length. -/
theorem length_sumAxis0 (B : List (List ℚ)) (d : ℕ) (hB : B ≠ [])
    (hd : ∀ s ∈ B, s.length = d) : (sumAxis0 B).length = d := by
  induction B with
  | nil => exact absurd rfl hB
  | cons s t ih =>
    cases t with
    | nil => simpa [sumAxis0] using hd s (by simp)
    | cons b u =>
      rw [show sumAxis0 (s :: b :: u) =
          List.zipWith (· + ·) s (sumAxis0 (b :: u)) from rfl]
      rw [List.length_zipWith]
      have h1 := hd s (by simp)
      have h2 := ih (by simp) (fun x hx => hd x (List.mem_cons_of_mem s hx))
      omega

/-- Per device, the elementwise sum is the sum of the readings of that
device across the samples. -/
theorem getD_sumAxis0 (B : List (List ℚ)) (d : ℕ) (hB : B ≠ [])
    (hd : ∀ s ∈ B, s.length = d) (j : ℕ) (hj : j < d) :
    (sumAxis0 B).getD j 0 = (B.map (fun s => s.getD j 0)).sum := by
  induction B with
  | nil => exact absurd rfl hB
  | cons s t ih =>
    cases t with
    | nil => simp [sumAxis0]
    | cons b u =>
      have hs : s.length = d := hd s (by simp)
      have hdt : ∀ x ∈ b :: u, x.length = d :=
        fun x hx => hd x (List.mem_cons_of_mem s hx)
      have hrec : (sumAxis0 (b :: u)).length = d :=
        length_sumAxis0 (b :: u) d (by simp) hdt
      have hlen : j < (List.zipWith (· + ·) s (sumAxis0 (b :: u))).length := by
        rw [List.length_zipWith, hs, hrec]
        omega
      rw [show sumAxis0 (s :: b :: u) =
          List.zipWith (· + ·) s (sumAxis0 (b :: u)) from rfl]
      rw [List.getD_eq_getElem _ _ hlen, List.getElem_zipWith]
      rw [← List.getD_eq_getElem s 0 (by omega),
        ← List.getD_eq_getElem (sumAxis0 (b :: u)) 0 (by omega)]
      rw [ih (by simp) hdt]
      simp

/-- The per-epoch energy of the code agrees with the formula of the spec on
a nonempty rectangular bucket. -/
theorem epoch_energy_eq_spec (B : List (List ℚ)) (t : ℚ) (d : ℕ)
    (hB : B ≠ []) (hd : ∀ s ∈ B, s.length = d) :
    epoch_energy B t = spec_epoch_energy d B t := by
  unfold epoch_energy spec_epoch_energy np_mean_axis0
  congr 1
  rw [List.map_map]
  apply congrArg List.sum
  apply List.ext_getElem
  · simp [length_sumAxis0 B d hB hd]
  · intro i h1 h2
    have hlen : (sumAxis0 B).length = d := length_sumAxis0 B d hB hd
    have hi : i < d := by simpa [hlen] using h1
    simp only [List.getElem_map, List.getElem_range, Function.comp]
    rw [← List.getD_eq_getElem (sumAxis0 B) 0 (by simpa using h1)]
    rw [getD_sumAxis0 B d hB hd i hi]

/-- C1: `energy_usage` computes, for each paired (bucket, time), the
per-device mean power times the elapsed time, summed across devices and
divided by 3,600,000 — the formula the spec states — on any run whose buckets are
nonempty and rectangular. -/
theorem energy_usage_matches_spec (c : Component) (ts : List ℚ) (d : ℕ)
    (hrect : ∀ B ∈ c.power_usages, B ≠ [] ∧ ∀ s ∈ B, s.length = d) :
    c.energy_usage ts =
      (c.power_usages.zip ts).map (fun p => spec_epoch_energy d p.1 p.2) := by
  unfold Component.energy_usage
  apply List.map_congr_left
  intro p hp
  obtain ⟨hB, hd⟩ := hrect p.1 (List.of_mem_zip hp).1
  exact epoch_energy_eq_spec p.1 p.2 d hB hd

/-- C1 witness: for the one-device bucket [[100],[200],[300]] and elapsed
time 3600 s, the theorem applies and the result is [0.2 kWh] (1/5 as a
rational). -/
theorem energy_usage_matches_spec_witness :
    (∀ B ∈ c1demo.power_usages, B ≠ [] ∧ ∀ s ∈ B, s.length = 1) ∧
    c1demo.energy_usage [3600] =
      (c1demo.power_usages.zip [3600]).map
        (fun p => spec_epoch_energy 1 p.1 p.2) ∧
    c1demo.energy_usage [3600] = [1 / 5] :=
  ⟨by decide, energy_usage_matches_spec c1demo [3600] 1 (by decide),
   by norm_num [Component.energy_usage, epoch_energy, np_mean_axis0, sumAxis0,
     c1demo, List.zip]⟩

/-- Constructing a registered name always succeeds, with that name stored
in the component. -/
theorem mk_ok_of_mem (reg : List ComponentSpec) (n : String)
    (h : n ∈ component_names reg) :
    Component.mk' reg n = Except.ok
      { name := n,
        _handler := determine_handler ((handlers_by_name reg n).getD []),
        power_usages := [], cur_epoch := -1, calls := 0 } := by
  unfold Component.mk'
  rw [if_pos h]

/-- Building components for a list of registered names succeeds and
preserves the names in order. -/
theorem mapM_mk_names (reg : List ComponentSpec) (l : List String)
    (h : ∀ n ∈ l, n ∈ component_names reg) :
    ∃ cs, l.mapM (fun n => Component.mk' reg n) = Except.ok cs ∧
      cs.map (fun c => c.name) = l := by
  induction l with
  | nil => exact ⟨[], rfl, rfl⟩
  | cons a t ih =>
    obtain ⟨cs, hcs, hnames⟩ := ih (fun n hn => h n (List.mem_cons_of_mem a hn))
    refine ⟨{ name := a
              _handler := determine_handler ((handlers_by_name reg a).getD [])
              power_usages := []
              cur_epoch := -1
              calls := 0 } :: cs, ?_, ?_⟩
    · rw [List.mapM_cons, mk_ok_of_mem reg a (h a (List.mem_cons_self a t)),
        hcs]
      rfl
    · simp [hnames]

/-- C8: when the selection string normalizes (strip whitespace, remove
embedded spaces) to the literal "all", `create_components` returns one
component per registered hardware-type name, in registry order. -/
theorem create_components_all (reg : List ComponentSpec) (s : String)
    (hall : pyRemoveSpaces (pyStrip s) = "all") :
    ∃ cs, create_components reg s = Except.ok cs ∧
      cs.map (fun c => c.name) = component_names reg := by
  unfold create_components
  rw [if_pos hall]
  exact mapM_mk_names reg (component_names reg) (fun n hn => hn)

/-- C8 witness: the selection string " all " (mixed whitespace) expands to
the full registry. -/
theorem create_components_all_witness :
    pyRemoveSpaces (pyStrip " all ") = "all" ∧
    ∃ cs, create_components regOn " all " = Except.ok cs ∧
      cs.map (fun c => c.name) = component_names regOn :=
  ⟨by decide, create_components_all regOn " all " (by decide)⟩

end Carbontracker
